import Mathlib

set_option autoImplicit false
set_option linter.unusedVariables false

/- Shallow embedding of the unified LLM adapter subsystem of the
   trySamm/api-python repository: app/schemas/llm.py, the provider adapters
   app/llm/providers/openai.py, anthropic.py, gemini.py, ollama.py, the
   orchestrator app/llm/adapter.py and the entry point app/llm/router.py.
   Python dict and list payloads are modelled by the JVal type, Optional
   values by Option, and the outcome of each outbound network call is an
   explicit CallOutcome argument, since the vendor SDK call itself lies
   outside the repository. -/

/-- JSON-compatible value, modelling Python dict, list and scalar payloads.
Numbers are modelled by Rat. -/
inductive JVal where
  | null
  | str (s : String)
  | num (q : Rat)
  | bool (b : Bool)
  | arr (xs : List JVal)
  | obj (fields : List (String × JVal))

/-- Outcome of decoding a JSON-serialized tool-argument string, as produced
by json.loads in openai.py line 111 and ollama.py lines 97-99: either the
decoded key-to-value mapping or a decode error message.  The wire payload
carries this decode outcome directly, because json.loads itself is a Python
library call outside the repository. -/
def ArgsParse : Type := Except String (List (String × JVal))

/-- Message in a conversation (app/schemas/llm.py, class LLMMessage):
a role string and a content string. -/
structure LLMMessage where
  role : String
  content : String
deriving DecidableEq

/-- Tool definition exposed to the model (app/schemas/llm.py, class
ToolDefinition).  The parameters field is a Python dict of JSON values. -/
structure ToolDefinition where
  name : String
  description : String
  parameters : List (String × JVal)

/-- Tool call produced by the model (app/schemas/llm.py, class ToolCall). -/
structure ToolCall where
  name : String
  arguments : List (String × JVal)

/-- Token usage statistics (app/schemas/llm.py, class UsageStats). -/
structure UsageStats where
  prompt_tokens : Int
  completion_tokens : Int
  total_tokens : Int
deriving DecidableEq

/-- Unified generation result (app/schemas/llm.py, class
LLMGenerateResponse).  The confidence field of the source schema is an
Optional float never assigned by any provider; it is modelled by an Option
Rat that always stays none. -/
structure LLMGenerateResponse where
  type : String
  content : Option String := none
  tool_call : Option ToolCall := none
  usage : Option UsageStats := none
  confidence : Option Rat := none
  provider : String
  model : String

/-- Arguments of the generate operation shared by every provider adapter and
the orchestrator (adapter.py lines 54-61). -/
structure GenInputs where
  system_prompt : String
  messages : List LLMMessage
  tools : List ToolDefinition
  temperature : Rat
  max_tokens : Int

/-- Errors that a generate attempt can surface.  unknownProvider models the
ValueError of adapter.py line 50; vendorError models an exception raised by
the vendor SDK network call; badReply models an exception raised while the
adapter digests the reply (missing choices, argument decode failure, or a
reply whose shape does not belong to the called vendor). -/
inductive LLMError where
  | unknownProvider (name : String)
  | vendorError (message : String)
  | badReply (message : String)
deriving DecidableEq

/- ---------------------------------------------------------------------
   Vendor reply models, following the attributes each adapter reads.
   --------------------------------------------------------------------- -/

/-- One content block of an Anthropic reply (anthropic.py lines 109-118
reads block.type, block.name, block.input, block.text).  Block types other
than text and tool_use are ignored by the loop and modelled by other. -/
inductive AnthropicBlock where
  | text (text : String)
  | tool_use (name : String) (input : List (String × JVal))
  | other

/-- Usage of an Anthropic reply (anthropic.py lines 101-105). -/
structure AnthropicUsage where
  input_tokens : Int
  output_tokens : Int

/-- Anthropic reply (anthropic.py lines 94-118). -/
structure AnthropicReply where
  content : List AnthropicBlock
  usage : AnthropicUsage

/-- Function part of an OpenAI tool call (openai.py lines 107-111); the
arguments field is the decode outcome of the serialized argument string. -/
structure OpenAIFunction where
  name : String
  arguments : ArgsParse

/-- OpenAI tool call entry (openai.py line 106). -/
structure OpenAIToolCall where
  function : OpenAIFunction

/-- OpenAI choice message (openai.py lines 90-114): content is Optional in
the vendor SDK, tool_calls is an Optional list. -/
structure OpenAIMessage where
  content : Option String
  tool_calls : Option (List OpenAIToolCall)

/-- OpenAI usage block (openai.py lines 98-102). -/
structure OpenAIUsage where
  prompt_tokens : Int
  completion_tokens : Int
  total_tokens : Int

/-- OpenAI reply (openai.py lines 87-102): a list of choices, each carrying
a message, plus an optional usage block. -/
structure OpenAIReply where
  choices : List OpenAIMessage
  usage : Option OpenAIUsage

/-- Function entry of an Ollama tool call (ollama.py lines 96-99): both keys
are read with dict defaults, so both are Options; arguments again carries
the decode outcome of the serialized argument string. -/
structure OllamaFunction where
  name : Option String
  arguments : Option ArgsParse

/-- Ollama tool call entry (ollama.py line 93): the function key is read
with a dict default. -/
structure OllamaToolCall where
  function : Option OllamaFunction

/-- Ollama reply message (ollama.py lines 88-102): content and tool_calls
are read with dict defaults. -/
structure OllamaMessage where
  content : Option String
  tool_calls : Option (List OllamaToolCall)

/-- Ollama reply body (ollama.py lines 79-110): the message key and the two
token counters are read with dict defaults or key tests. -/
structure OllamaReply where
  message : Option OllamaMessage
  prompt_eval_count : Option Int
  eval_count : Option Int

/-- Gemini function call part (gemini.py lines 144-149). -/
structure GeminiFunctionCall where
  name : String
  args : List (String × JVal)

/-- Gemini reply part (gemini.py lines 143-152).  A field is some exactly
when the source attribute exists and is truthy, matching the hasattr plus
truthiness tests of the loop; in particular an empty text string is
modelled by none. -/
structure GeminiPart where
  function_call : Option GeminiFunctionCall
  text : Option String

/-- Gemini reply candidate (gemini.py line 142). -/
structure GeminiCandidate where
  parts : List GeminiPart

/-- Gemini reply (gemini.py lines 142-152). -/
structure GeminiReply where
  candidates : List GeminiCandidate

/-- Identifier of a registered provider (adapter.py lines 41-46). -/
inductive ProviderId where
  | openai
  | anthropic
  | gemini
  | ollama
deriving DecidableEq

/-- Registry name of a provider, which is also the provider string each
adapter stamps into its result. -/
def providerName : ProviderId → String
  | .openai => "openai"
  | .anthropic => "anthropic"
  | .gemini => "gemini"
  | .ollama => "ollama"

/-- Provider registry lookup (adapter.py lines 41-50): the four registered
lowercase identifiers map to adapter constructors, anything else is a
configuration error. -/
def lookupProvider (name : String) : Option ProviderId :=
  if name = "openai" then some ProviderId.openai
  else if name = "anthropic" then some ProviderId.anthropic
  else if name = "gemini" then some ProviderId.gemini
  else if name = "ollama" then some ProviderId.ollama
  else none

/-- Body of a vendor reply, tagged by the vendor whose wire shape it has. -/
inductive VendorReply where
  | openai (r : OpenAIReply)
  | anthropic (r : AnthropicReply)
  | gemini (r : GeminiReply)
  | ollama (r : OllamaReply)

/-- Outcome of one outbound network call: either a reply body or a raised
exception carrying a message. -/
inductive CallOutcome where
  | reply (r : VendorReply)
  | failure (message : String)

/- ---------------------------------------------------------------------
   Outbound request construction.
   --------------------------------------------------------------------- -/

/-- Role normalization of the Anthropic adapter (anthropic.py lines 55-59):
a system role becomes user, every other role is kept. -/
def anthropicNormalizeRole (m : LLMMessage) : LLMMessage :=
  { role := if m.role = "system" then "user" else m.role, content := m.content }

/-- Tail of the adjacent same-role merging loop of the Anthropic adapter
(anthropic.py lines 63-72), carrying the last appended message: on a role
match the content of that message is extended with a newline and the next
content, otherwise the message is emitted and the next one becomes last. -/
def mergeAux (cur : LLMMessage) : List LLMMessage → List LLMMessage
  | [] => [cur]
  | m :: rest =>
    if m.role = cur.role then
      mergeAux { role := cur.role, content := cur.content ++ "\n" ++ m.content } rest
    else
      cur :: mergeAux m rest

/-- Adjacent same-role merging loop of the Anthropic adapter (anthropic.py
lines 63-72) over the whole normalized list. -/
def mergeMessages : List LLMMessage → List LLMMessage
  | [] => []
  | m :: rest => mergeAux m rest

/-- Processed message list of the Anthropic adapter: role normalization
followed by adjacent same-role merging (anthropic.py lines 53-72). -/
def anthropicProcessed (msgs : List LLMMessage) : List LLMMessage :=
  mergeMessages (msgs.map anthropicNormalizeRole)

/-- Messages field of the Anthropic request (anthropic.py line 79): the
processed list, or a single Hello user message when the processed list is
empty. -/
def anthropicOutbound (msgs : List LLMMessage) : List LLMMessage :=
  if (anthropicProcessed msgs).isEmpty then
    [{ role := "user", content := "Hello" }]
  else
    anthropicProcessed msgs

/-- Wire encoding of a message list as a JSON array of role/content
objects, as built by the message loops of the adapters. -/
def msgsToJson (ms : List LLMMessage) : JVal :=
  JVal.arr (ms.map fun m => JVal.obj [("role", JVal.str m.role), ("content", JVal.str m.content)])

/-- Anthropic tool format (anthropic.py lines 28-40). -/
def anthropicToolJson (t : ToolDefinition) : JVal :=
  JVal.obj [("name", JVal.str t.name), ("description", JVal.str t.description),
            ("input_schema", JVal.obj t.parameters)]

/-- OpenAI function-calling tool format (openai.py lines 28-43). -/
def openaiToolJson (t : ToolDefinition) : JVal :=
  JVal.obj [("type", JVal.str "function"),
            ("function", JVal.obj [("name", JVal.str t.name),
                                   ("description", JVal.str t.description),
                                   ("parameters", JVal.obj t.parameters)])]

/-- Ollama function-calling tool format (ollama.py lines 120-135), the same
nested shape as the OpenAI one. -/
def ollamaToolJson (t : ToolDefinition) : JVal :=
  openaiToolJson t

/-- Keyword arguments of the Anthropic API call (anthropic.py lines 74-84):
model, max_tokens, system and messages, then a tools key exactly when the
tools list is non-empty.  No temperature and no tool choice key is set. -/
def anthropicBuildKwargs (model : String) (inp : GenInputs) : List (String × JVal) :=
  [("model", JVal.str model),
   ("max_tokens", JVal.num inp.max_tokens),
   ("system", JVal.str inp.system_prompt),
   ("messages", msgsToJson (anthropicOutbound inp.messages))]
  ++ (if inp.tools.isEmpty then []
      else [("tools", JVal.arr (inp.tools.map anthropicToolJson))])

/-- Keyword arguments of the OpenAI API call (openai.py lines 55-77): a
leading in-band system message, then model, messages, temperature and
max_tokens, and when the tools list is non-empty both a tools key and a
tool_choice key set to auto. -/
def openaiBuildKwargs (model : String) (inp : GenInputs) : List (String × JVal) :=
  [("model", JVal.str model),
   ("messages", msgsToJson ({ role := "system", content := inp.system_prompt } :: inp.messages)),
   ("temperature", JVal.num inp.temperature),
   ("max_tokens", JVal.num inp.max_tokens)]
  ++ (if inp.tools.isEmpty then []
      else [("tools", JVal.arr (inp.tools.map openaiToolJson)),
            ("tool_choice", JVal.str "auto")])

/-- Request payload of the Ollama API call (ollama.py lines 38-62): a
leading in-band system message, then model, messages, stream false and an
options object with temperature and num_predict, and a tools key exactly
when the tools list is non-empty.  No tool choice key is set. -/
def ollamaBuildPayload (model : String) (inp : GenInputs) : List (String × JVal) :=
  [("model", JVal.str model),
   ("messages", msgsToJson ({ role := "system", content := inp.system_prompt } :: inp.messages)),
   ("stream", JVal.bool false),
   ("options", JVal.obj [("temperature", JVal.num inp.temperature),
                         ("num_predict", JVal.num inp.max_tokens)])]
  ++ (if inp.tools.isEmpty then []
      else [("tools", JVal.arr (inp.tools.map ollamaToolJson))])

/- ---------------------------------------------------------------------
   Gemini request construction (gemini.py lines 29-132).
   --------------------------------------------------------------------- -/

/-- Gemini primitive type code (genai.protos.Type). -/
inductive GeminiType where
  | STRING
  | NUMBER
  | INTEGER
  | BOOLEAN
  | ARRAY
  | OBJECT
deriving DecidableEq

/-- Type map of the Gemini adapter (gemini.py lines 70-80): the six known
JSON Schema type strings map to their codes, anything else defaults to the
string code. -/
def geminiMapType (jsonType : String) : GeminiType :=
  if jsonType = "string" then GeminiType.STRING
  else if jsonType = "number" then GeminiType.NUMBER
  else if jsonType = "integer" then GeminiType.INTEGER
  else if jsonType = "boolean" then GeminiType.BOOLEAN
  else if jsonType = "array" then GeminiType.ARRAY
  else if jsonType = "object" then GeminiType.OBJECT
  else GeminiType.STRING

/-- Reading of a type entry of a schema dict (gemini.py lines 56 and 67):
an absent key defaults to the string type name, a present non-string value
misses every key of the type map and so also yields the string code. -/
def geminiTypeOf (v : Option JVal) : GeminiType :=
  match v with
  | none => geminiMapType "string"
  | some (JVal.str s) => geminiMapType s
  | some _ => GeminiType.STRING

/-- Property schema built for each property of an object schema
(gemini.py lines 55-58). -/
structure GeminiProperty where
  type : GeminiType
  description : String
deriving DecidableEq

/-- Gemini schema object (genai.protos.Schema as built by gemini.py lines
50-68): either an object schema with properties and required names, or a
scalar schema carrying only a type code. -/
inductive GeminiSchema where
  | object (properties : List (String × GeminiProperty)) (required : List String)
  | scalar (type : GeminiType)

/-- Description entry of a property dict (gemini.py line 57), read with an
empty-string dict default; a non-string value is modelled by the default. -/
def geminiDescOf (v : Option JVal) : String :=
  match v with
  | some (JVal.str s) => s
  | _ => ""

/-- Conversion of the properties dict of an object schema (gemini.py lines
53-58); an absent properties key defaults to the empty dict. -/
def geminiProps (v : Option JVal) : List (String × GeminiProperty) :=
  match v with
  | some (JVal.obj kvs) =>
      kvs.map fun kv =>
        match kv.2 with
        | JVal.obj fields =>
            (kv.1, { type := geminiTypeOf (fields.lookup "type"),
                     description := geminiDescOf (fields.lookup "description") })
        | _ => (kv.1, { type := GeminiType.STRING, description := "" })
  | _ => []

/-- Required list of an object schema (gemini.py line 63), read with an
empty-list dict default. -/
def geminiRequired (v : Option JVal) : List String :=
  match v with
  | some (JVal.arr xs) =>
      xs.filterMap fun x => match x with | JVal.str s => some s | _ => none
  | _ => []

/-- Schema conversion of the Gemini adapter (gemini.py lines 50-68): an
object schema keeps properties and required names, everything else becomes
a scalar schema of the mapped type. -/
def geminiConvertSchema (schema : List (String × JVal)) : GeminiSchema :=
  match schema.lookup "type" with
  | some (JVal.str "object") =>
      GeminiSchema.object (geminiProps (schema.lookup "properties"))
                          (geminiRequired (schema.lookup "required"))
  | v => GeminiSchema.scalar (geminiTypeOf v)

/-- Gemini function declaration (gemini.py lines 40-46). -/
structure GeminiFunctionDecl where
  name : String
  description : String
  parameters : GeminiSchema

/-- Gemini tool, a bundle of function declarations (gemini.py line 48). -/
structure GeminiTool where
  function_declarations : List GeminiFunctionDecl

/-- Tool conversion of the Gemini adapter (gemini.py lines 29-48): one tool
object holding all function declarations. -/
def geminiConvertTools (tools : List ToolDefinition) : List GeminiTool :=
  [{ function_declarations :=
       tools.map fun t =>
         { name := t.name, description := t.description,
           parameters := geminiConvertSchema t.parameters } }]

/-- Generation config of the Gemini call (gemini.py lines 106-109). -/
structure GenerationConfig where
  temperature : Rat
  max_output_tokens : Int
deriving DecidableEq

/-- History entry of the Gemini chat (gemini.py lines 93-100). -/
structure GeminiHistoryMsg where
  role : String
  parts : List String
deriving DecidableEq

/-- Keyword argument values of the Gemini send call (gemini.py lines
121-126). -/
inductive GeminiKw where
  | config (c : GenerationConfig)
  | tools (ts : List GeminiTool)

/-- Conversation history built by the Gemini adapter (gemini.py lines
93-100): user stays user, every other role becomes model, each content is a
singleton parts list. -/
def geminiHistory (msgs : List LLMMessage) : List GeminiHistoryMsg :=
  msgs.map fun m =>
    { role := if m.role = "user" then "user" else "model", parts := [m.content] }

/-- New-turn text of the Gemini adapter (gemini.py line 119): the first
part of the last history entry, or Hello when the history is empty.  The
parts list of every history entry is a singleton by construction. -/
def geminiLastMessage (history : List GeminiHistoryMsg) : String :=
  match history.getLast? with
  | some h => h.parts.headD ""
  | none => "Hello"

/-- Full Gemini request (gemini.py lines 103-132): the chat history minus
its last entry, the sent text combining system prompt and last message, and
the keyword arguments, which hold the generation config and a tools key
exactly when the tools list is non-empty.  No tool choice key is set. -/
structure GeminiRequest where
  chat_history : List GeminiHistoryMsg
  message : String
  kwargs : List (String × GeminiKw)

/-- Request builder of the Gemini adapter (gemini.py lines 92-132). -/
def geminiBuildRequest (inp : GenInputs) : GeminiRequest :=
  let history := geminiHistory inp.messages
  { chat_history := history.dropLast,
    message := inp.system_prompt ++ "\n\n" ++ geminiLastMessage history,
    kwargs :=
      [("generation_config",
        GeminiKw.config { temperature := inp.temperature, max_output_tokens := inp.max_tokens })]
      ++ (if inp.tools.isEmpty then []
          else [("tools", GeminiKw.tools (geminiConvertTools inp.tools))]) }

/-- Role alternation check on a message list: true when no two adjacent
messages carry the same role. -/
def rolesAlternate : List LLMMessage → Bool
  | [] => true
  | [_] => true
  | a :: b :: rest =>
      if a.role = b.role then false else rolesAlternate (b :: rest)

/- ---------------------------------------------------------------------
   Reply handling of each provider adapter.
   --------------------------------------------------------------------- -/

/-- Content-block loop of the Anthropic adapter (anthropic.py lines
109-118): the first tool_use block sets the type to tool_call and stops the
loop, a text block overwrites the content field and the loop continues. -/
def anthropicScanBlocks (r : LLMGenerateResponse) :
    List AnthropicBlock → LLMGenerateResponse
  | [] => r
  | AnthropicBlock.tool_use name input :: _ =>
      { r with type := "tool_call", tool_call := some { name := name, arguments := input } }
  | AnthropicBlock.text t :: rest =>
      anthropicScanBlocks { r with content := some t } rest
  | AnthropicBlock.other :: rest => anthropicScanBlocks r rest

/-- Reply handling of the Anthropic adapter (anthropic.py lines 94-126):
the base result stamps provider anthropic, the given model and the usage
sums, then the content blocks are scanned. -/
def anthropicHandle (model : String) (rep : AnthropicReply) :
    Except LLMError LLMGenerateResponse :=
  Except.ok (anthropicScanBlocks
    { type := "text", provider := "anthropic", model := model,
      usage := some { prompt_tokens := rep.usage.input_tokens,
                      completion_tokens := rep.usage.output_tokens,
                      total_tokens := rep.usage.input_tokens + rep.usage.output_tokens } }
    rep.content)

/-- Reply handling of the OpenAI adapter (openai.py lines 87-122): the
first choice is read (a missing choice raises), the first tool call wins
when the tool-call list is present and non-empty, otherwise the content of
the message is copied.  A failing argument decode raises. -/
def openaiHandle (model : String) (rep : OpenAIReply) :
    Except LLMError LLMGenerateResponse :=
  match rep.choices with
  | [] => Except.error (LLMError.badReply "no choices in response")
  | message :: _ =>
    let base : LLMGenerateResponse :=
      { type := "text", provider := "openai", model := model,
        usage := rep.usage.map fun u =>
          { prompt_tokens := u.prompt_tokens,
            completion_tokens := u.completion_tokens,
            total_tokens := u.total_tokens } }
    match message.tool_calls with
    | some (tc :: _) =>
        (match tc.function.arguments with
         | Except.ok args =>
             Except.ok { base with type := "tool_call",
                                   tool_call := some { name := tc.function.name,
                                                       arguments := args } }
         | Except.error msg => Except.error (LLMError.badReply msg))
    | _ => Except.ok { base with content := message.content }

/-- Usage extraction of the Ollama adapter (ollama.py lines 105-110): set
exactly when the reply carries an eval_count key, with dict defaults of
zero for the counters. -/
def ollamaUsage (rep : OllamaReply) : Option UsageStats :=
  match rep.eval_count with
  | some ec => some { prompt_tokens := rep.prompt_eval_count.getD 0,
                      completion_tokens := ec,
                      total_tokens := rep.prompt_eval_count.getD 0 + ec }
  | none => none

/-- Reply handling of the Ollama adapter (ollama.py lines 81-118): the
message key is read with an empty dict default, the first tool call wins
when the tool-call list is present and non-empty, otherwise the content is
copied with an empty-string default.  An absent arguments key defaults to
the empty object; a failing argument decode raises. -/
def ollamaHandle (model : String) (rep : OllamaReply) :
    Except LLMError LLMGenerateResponse :=
  let message := rep.message.getD { content := none, tool_calls := none }
  let base : LLMGenerateResponse :=
    { type := "text", provider := "ollama", model := model, usage := ollamaUsage rep }
  match message.tool_calls with
  | some (tc :: _) =>
      let fn := tc.function.getD { name := none, arguments := none }
      (match fn.arguments.getD (Except.ok []) with
       | Except.ok args =>
           Except.ok { base with type := "tool_call",
                                 tool_call := some { name := fn.name.getD "",
                                                     arguments := args } }
       | Except.error msg => Except.error (LLMError.badReply msg))
  | _ => Except.ok { base with content := some (message.content.getD "") }

/-- Part loop of the Gemini adapter (gemini.py lines 143-152) over the
parts of one candidate: the first truthy function call sets the type to
tool_call and stops this inner loop, a truthy text part overwrites the
content field and the loop continues. -/
def geminiScanParts (r : LLMGenerateResponse) :
    List GeminiPart → LLMGenerateResponse
  | [] => r
  | p :: rest =>
    match p.function_call with
    | some fc =>
        { r with type := "tool_call", tool_call := some { name := fc.name, arguments := fc.args } }
    | none =>
      match p.text with
      | some t => geminiScanParts { r with content := some t } rest
      | none => geminiScanParts r rest

/-- Candidate loop of the Gemini adapter (gemini.py line 142): the break of
the inner loop does not stop this outer loop, so later candidates are still
scanned. -/
def geminiScanCandidates (r : LLMGenerateResponse) :
    List GeminiCandidate → LLMGenerateResponse
  | [] => r
  | c :: rest => geminiScanCandidates (geminiScanParts r c.parts) rest

/-- Reply handling of the Gemini adapter (gemini.py lines 134-160): the
base result stamps provider gemini and the given model, carries no usage,
and the candidates are scanned. -/
def geminiHandle (model : String) (rep : GeminiReply) :
    Except LLMError LLMGenerateResponse :=
  Except.ok (geminiScanCandidates
    { type := "text", provider := "gemini", model := model }
    rep.candidates)

/-- Generate operation of one provider adapter, given the outcome of its
network call: a raised call becomes a vendor error, a reply of the wrong
vendor shape is unreachable in the source and becomes a bad-reply error,
and a matching reply is handled by the adapter. -/
def providerGenerate (pid : ProviderId) (model : String) (inp : GenInputs)
    (net : CallOutcome) : Except LLMError LLMGenerateResponse :=
  match net with
  | CallOutcome.failure msg => Except.error (LLMError.vendorError msg)
  | CallOutcome.reply vr =>
    match pid, vr with
    | ProviderId.openai, VendorReply.openai r => openaiHandle model r
    | ProviderId.anthropic, VendorReply.anthropic r => anthropicHandle model r
    | ProviderId.gemini, VendorReply.gemini r => geminiHandle model r
    | ProviderId.ollama, VendorReply.ollama r => ollamaHandle model r
    | _, _ => Except.error (LLMError.badReply "reply shape mismatch")

/- ---------------------------------------------------------------------
   Orchestrator (app/llm/adapter.py).
   --------------------------------------------------------------------- -/

/-- Python truthiness of an Optional string: none and the empty string are
falsy, every other string is truthy. -/
def truthy : Option String → Bool
  | none => false
  | some s => s ≠ ""

/-- Constructor state of the LLMAdapter class (adapter.py lines 27-37). -/
structure AdapterConfig where
  provider : String
  model : String
  fallback_provider : Option String
  fallback_model : Option String

/-- One guarded attempt: provider lookup followed by the generate call of
the obtained adapter (adapter.py lines 39-52 and 67-74, likewise lines
88-98 for the fallback attempt). -/
def attemptProvider (name : String) (model : String) (inp : GenInputs)
    (net : CallOutcome) : Except LLMError LLMGenerateResponse :=
  match lookupProvider name with
  | none => Except.error (LLMError.unknownProvider name)
  | some pid => providerGenerate pid model inp net

/-- Generate method of the orchestrator (adapter.py lines 54-110): the
primary attempt runs inside the try block, so any of its errors, the
unknown-provider error included, reaches the except branch; when both
fallback fields are truthy the fallback attempt runs with the same inputs
and its outcome, success or error, is what the caller sees; otherwise the
primary error is re-raised. -/
def LLMAdapter.generate (cfg : AdapterConfig) (inp : GenInputs)
    (primaryNet fallbackNet : CallOutcome) : Except LLMError LLMGenerateResponse :=
  match attemptProvider cfg.provider cfg.model inp primaryNet with
  | Except.ok r => Except.ok r
  | Except.error e =>
    if truthy cfg.fallback_provider && truthy cfg.fallback_model then
      attemptProvider (cfg.fallback_provider.getD "") (cfg.fallback_model.getD "")
        inp fallbackNet
    else
      Except.error e

/- ---------------------------------------------------------------------
   Entry point configuration resolution (app/llm/router.py lines 42-63).
   --------------------------------------------------------------------- -/

/-- Tenant record fields read by the entry point (app/models/tenant.py):
the four LLM columns, all nullable strings. -/
structure TenantRec where
  llm_provider : Option String
  llm_model : Option String
  fallback_llm_provider : Option String
  fallback_llm_model : Option String

/-- Python or-expression on Optional strings: the left operand when it is
truthy, otherwise the right operand. -/
def pyOr (a b : Option String) : Option String :=
  if truthy a then a else b

/-- Effective configuration produced by the entry point. -/
structure ResolvedConfig where
  provider : Option String
  model : Option String
  fallback_provider : Option String
  fallback_model : Option String
deriving DecidableEq

/-- Configuration resolution of the entry point (router.py lines 42-55):
with a tenant record the request override is or-combined with the stored
tenant values and the fallback pair is copied from the tenant; without a
tenant record the override is or-combined with the hardcoded defaults and
no fallback pair is set. -/
def resolveConfig (reqProvider reqModel : Option String)
    (tenant : Option TenantRec) : ResolvedConfig :=
  match tenant with
  | some t =>
      { provider := pyOr reqProvider t.llm_provider,
        model := pyOr reqModel t.llm_model,
        fallback_provider := t.fallback_llm_provider,
        fallback_model := t.fallback_llm_model }
  | none =>
      { provider := pyOr reqProvider (some "openai"),
        model := pyOr reqModel (some "gpt-4-turbo"),
        fallback_provider := none,
        fallback_model := none }

/-- Modelled from the spec: the three-layer resolution the spec describes,
in which the explicit override takes precedence over the tenant-stored
default, which takes precedence over the hardcoded system default.  This
definition follows the spec wording and exists only for comparison with
resolveConfig, the definition taken from router.py. -/
def resolveConfigSpecLayered (reqProvider reqModel : Option String)
    (tenant : Option TenantRec) : ResolvedConfig :=
  { provider := pyOr reqProvider (pyOr (tenant.bind TenantRec.llm_provider) (some "openai")),
    model := pyOr reqModel (pyOr (tenant.bind TenantRec.llm_model) (some "gpt-4-turbo")),
    fallback_provider := match tenant with
      | some t => t.fallback_llm_provider
      | none => none,
    fallback_model := match tenant with
      | some t => t.fallback_llm_model
      | none => none }

/- ---------------------------------------------------------------------
   Helper lemmas.
   --------------------------------------------------------------------- -/

/-- Scan of the Anthropic content blocks never changes the stamped provider
and model fields. -/
theorem anthropicScanBlocks_stamp (blocks : List AnthropicBlock)
    (r : LLMGenerateResponse) :
    (anthropicScanBlocks r blocks).provider = r.provider
    ∧ (anthropicScanBlocks r blocks).model = r.model := by
  induction blocks generalizing r with
  | nil => exact ⟨rfl, rfl⟩
  | cons b rest ih =>
    cases b with
    | text t => exact ih _
    | tool_use n i => exact ⟨rfl, rfl⟩
    | other => exact ih _

/-- Scan of the parts of one Gemini candidate never changes the stamped
provider and model fields. -/
theorem geminiScanParts_stamp (parts : List GeminiPart)
    (r : LLMGenerateResponse) :
    (geminiScanParts r parts).provider = r.provider
    ∧ (geminiScanParts r parts).model = r.model := by
  induction parts generalizing r with
  | nil => exact ⟨rfl, rfl⟩
  | cons p rest ih =>
    obtain ⟨fc, tx⟩ := p
    cases fc with
    | some f => exact ⟨rfl, rfl⟩
    | none =>
      cases tx with
      | some t => exact ih _
      | none => exact ih _

/-- Scan of the Gemini candidates never changes the stamped provider and
model fields. -/
theorem geminiScanCandidates_stamp (cs : List GeminiCandidate)
    (r : LLMGenerateResponse) :
    (geminiScanCandidates r cs).provider = r.provider
    ∧ (geminiScanCandidates r cs).model = r.model := by
  induction cs generalizing r with
  | nil => exact ⟨rfl, rfl⟩
  | cons c rest ih =>
    exact ⟨((ih _).1).trans (geminiScanParts_stamp _ _).1,
           ((ih _).2).trans (geminiScanParts_stamp _ _).2⟩

/-- Discrimination invariant of a generation result: the type field holds
one of the two kind names and the tool_call field is populated exactly when
the type field reads tool_call. -/
def resultTypeOk (r : LLMGenerateResponse) : Prop :=
  (r.type = "text" ∨ r.type = "tool_call")
  ∧ (r.tool_call.isSome = true ↔ r.type = "tool_call")

/-- Scan of the Anthropic content blocks preserves the discrimination
invariant. -/
theorem anthropicScanBlocks_typeOk (blocks : List AnthropicBlock)
    (r : LLMGenerateResponse) (h : resultTypeOk r) :
    resultTypeOk (anthropicScanBlocks r blocks) := by
  induction blocks generalizing r with
  | nil => exact h
  | cons b rest ih =>
    cases b with
    | text t => exact ih _ h
    | tool_use n i => exact ⟨Or.inr rfl, by simp [anthropicScanBlocks]⟩
    | other => exact ih _ h

/-- Scan of the parts of one Gemini candidate preserves the discrimination
invariant. -/
theorem geminiScanParts_typeOk (parts : List GeminiPart)
    (r : LLMGenerateResponse) (h : resultTypeOk r) :
    resultTypeOk (geminiScanParts r parts) := by
  induction parts generalizing r with
  | nil => exact h
  | cons p rest ih =>
    obtain ⟨fc, tx⟩ := p
    cases fc with
    | some f => exact ⟨Or.inr rfl, by simp [geminiScanParts]⟩
    | none =>
      cases tx with
      | some t => exact ih _ h
      | none => exact ih _ h

/-- Scan of the Gemini candidates preserves the discrimination invariant. -/
theorem geminiScanCandidates_typeOk (cs : List GeminiCandidate)
    (r : LLMGenerateResponse) (h : resultTypeOk r) :
    resultTypeOk (geminiScanCandidates r cs) := by
  induction cs generalizing r with
  | nil => exact h
  | cons c rest ih => exact ih _ (geminiScanParts_typeOk _ _ h)

/-- Successful Anthropic reply handling stamps the adapter identity and
satisfies the discrimination invariant. -/
theorem anthropicHandle_ok {model : String} {rep : AnthropicReply}
    {r : LLMGenerateResponse} (h : anthropicHandle model rep = Except.ok r) :
    r.provider = "anthropic" ∧ r.model = model ∧ resultTypeOk r := by
  injection h with h
  subst h
  exact ⟨(anthropicScanBlocks_stamp _ _).1, (anthropicScanBlocks_stamp _ _).2,
         anthropicScanBlocks_typeOk _ _ ⟨Or.inl rfl, by simp⟩⟩

/-- Successful Gemini reply handling stamps the adapter identity and
satisfies the discrimination invariant. -/
theorem geminiHandle_ok {model : String} {rep : GeminiReply}
    {r : LLMGenerateResponse} (h : geminiHandle model rep = Except.ok r) :
    r.provider = "gemini" ∧ r.model = model ∧ resultTypeOk r := by
  injection h with h
  subst h
  exact ⟨(geminiScanCandidates_stamp _ _).1, (geminiScanCandidates_stamp _ _).2,
         geminiScanCandidates_typeOk _ _ ⟨Or.inl rfl, by simp⟩⟩

/-- Successful OpenAI reply handling stamps the adapter identity and
satisfies the discrimination invariant. -/
theorem openaiHandle_ok {model : String} {rep : OpenAIReply}
    {r : LLMGenerateResponse} (h : openaiHandle model rep = Except.ok r) :
    r.provider = "openai" ∧ r.model = model ∧ resultTypeOk r := by
  unfold openaiHandle at h
  split at h
  · exact Except.noConfusion h
  · split at h
    · split at h
      · injection h with h
        subst h
        exact ⟨rfl, rfl, Or.inr rfl, by simp⟩
      · exact Except.noConfusion h
    · injection h with h
      subst h
      exact ⟨rfl, rfl, Or.inl rfl, by simp⟩

/-- Successful Ollama reply handling stamps the adapter identity and
satisfies the discrimination invariant. -/
theorem ollamaHandle_ok {model : String} {rep : OllamaReply}
    {r : LLMGenerateResponse} (h : ollamaHandle model rep = Except.ok r) :
    r.provider = "ollama" ∧ r.model = model ∧ resultTypeOk r := by
  simp only [ollamaHandle] at h
  split at h
  · split at h
    · injection h with h
      subst h
      exact ⟨rfl, rfl, Or.inr rfl, by simp⟩
    · exact Except.noConfusion h
  · injection h with h
    subst h
    exact ⟨rfl, rfl, Or.inl rfl, by simp⟩

/-- Every successful provider generate stamps the identity of the adapter
that produced it and satisfies the discrimination invariant. -/
theorem providerGenerate_ok {pid : ProviderId} {model : String}
    {inp : GenInputs} {net : CallOutcome} {r : LLMGenerateResponse}
    (h : providerGenerate pid model inp net = Except.ok r) :
    r.provider = providerName pid ∧ r.model = model ∧ resultTypeOk r := by
  cases net with
  | failure m => exact Except.noConfusion h
  | reply vr =>
    cases pid <;> cases vr <;>
      first
      | exact Except.noConfusion h
      | exact openaiHandle_ok h
      | exact anthropicHandle_ok h
      | exact geminiHandle_ok h
      | exact ollamaHandle_ok h

/-- Merging never produces an empty list. -/
theorem mergeAux_ne_nil (l : List LLMMessage) (cur : LLMMessage) :
    mergeAux cur l ≠ [] := by
  induction l generalizing cur with
  | nil => exact fun h => List.noConfusion h
  | cons m rest ih =>
    simp only [mergeAux]
    by_cases hmr : m.role = cur.role
    · rw [if_pos hmr]
      exact ih _
    · rw [if_neg hmr]
      exact fun h => List.noConfusion h

/-- The merged list starts with a message carrying the role of the seed. -/
theorem mergeAux_head_role (l : List LLMMessage) (cur : LLMMessage) :
    ∃ c tl, mergeAux cur l = { role := cur.role, content := c } :: tl := by
  induction l generalizing cur with
  | nil => exact ⟨cur.content, [], rfl⟩
  | cons m rest ih =>
    by_cases hmr : m.role = cur.role
    · obtain ⟨c, tl, hc⟩ :=
        ih { role := cur.role, content := cur.content ++ "\n" ++ m.content }
      refine ⟨c, tl, ?_⟩
      simp only [mergeAux]
      rw [if_pos hmr]
      exact hc
    · refine ⟨cur.content, mergeAux m rest, ?_⟩
      simp only [mergeAux]
      rw [if_neg hmr]

/-- The merged list has no two adjacent messages with the same role. -/
theorem mergeAux_alternates (l : List LLMMessage) (cur : LLMMessage) :
    rolesAlternate (mergeAux cur l) = true := by
  induction l generalizing cur with
  | nil => rfl
  | cons m rest ih =>
    simp only [mergeAux]
    by_cases hmr : m.role = cur.role
    · rw [if_pos hmr]
      exact ih _
    · rw [if_neg hmr]
      obtain ⟨c, tl, hc⟩ := mergeAux_head_role rest m
      have halt := ih m
      rw [hc] at halt
      rw [hc]
      simp only [rolesAlternate]
      rw [if_neg (fun h => hmr h.symm)]
      exact halt

/-- The merged form of any message list alternates roles. -/
theorem mergeMessages_alternates (l : List LLMMessage) :
    rolesAlternate (mergeMessages l) = true := by
  cases l with
  | nil => rfl
  | cons m rest => exact mergeAux_alternates rest m

/-- An empty merged list forces an empty input list. -/
theorem mergeMessages_eq_nil {l : List LLMMessage}
    (h : mergeMessages l = []) : l = [] := by
  cases l with
  | nil => rfl
  | cons m rest => exact absurd h (mergeAux_ne_nil rest m)

/- ---------------------------------------------------------------------
   Claim theorems.
   --------------------------------------------------------------------- -/

/-- Conversation input used by the C1 counterexample. -/
def c1inp : GenInputs :=
  { system_prompt := "You are a restaurant host.",
    messages := [{ role := "user", content := "Book a table" }],
    tools := [], temperature := 1, max_tokens := 64 }

/-- Anthropic reply used by the C1 counterexample: a text block followed by
a tool_use block. -/
def c1reply : AnthropicReply :=
  { content := [AnthropicBlock.text "Sure, one moment.",
                AnthropicBlock.tool_use "search_menu" [("query", JVal.str "pizza")]],
    usage := { input_tokens := 3, output_tokens := 5 } }

/-- C1 counterexample: a successful Anthropic generate on a reply holding a
text block before a tool_use block returns a result in which the content
field and the tool_call field are BOTH populated, refuting the claim that
exactly one of them is ever populated. -/
theorem anthropic_generate_both_text_and_tool_call_populated :
    (providerGenerate ProviderId.anthropic "claude-3-sonnet-20240229" c1inp
        (CallOutcome.reply (VendorReply.anthropic c1reply))).toOption.map
      (fun r => (r.content.isSome, r.tool_call.isSome)) = some (true, true) := rfl

/-- C1 (amended): on every successful generate of every provider adapter,
the type field is exactly one of text and tool_call, and the tool_call
field is populated exactly when the type field reads tool_call.  Exact
one-of-two population of the content and tool_call fields does not hold:
the Anthropic and Gemini adapters keep text found before a tool call, and a
reply with neither text nor tool invocation populates neither field. -/
theorem generate_result_type_discriminates_tool_call
    (pid : ProviderId) (model : String) (inp : GenInputs) (net : CallOutcome)
    (r : LLMGenerateResponse)
    (h : providerGenerate pid model inp net = Except.ok r) :
    (r.type = "text" ∨ r.type = "tool_call")
    ∧ (r.tool_call.isSome = true ↔ r.type = "tool_call") :=
  (providerGenerate_ok h).2.2

/-- Input used by the C1 witness. -/
def c1winp : GenInputs :=
  { system_prompt := "S", messages := [], tools := [], temperature := 1, max_tokens := 16 }

/-- Ollama reply used by the C1 witness. -/
def c1wreply : OllamaReply :=
  { message := some { content := some "hi", tool_calls := none },
    prompt_eval_count := none, eval_count := none }

/-- Result of the C1 witness run. -/
def c1wres : LLMGenerateResponse :=
  { type := "text", content := some "hi", provider := "ollama", model := "llama2" }

/-- C1 witness: the amended theorem applied to a concrete successful Ollama
generate. -/
theorem generate_result_type_discriminates_tool_call_witness :
    (c1wres.type = "text" ∨ c1wres.type = "tool_call")
    ∧ (c1wres.tool_call.isSome = true ↔ c1wres.type = "tool_call") :=
  generate_result_type_discriminates_tool_call ProviderId.ollama "llama2" c1winp
    (CallOutcome.reply (VendorReply.ollama c1wreply)) c1wres rfl

/-- C2: when the primary attempt fails and both fallback fields are truthy
with the fallback provider registered, the orchestrator returns exactly the
result of the fallback adapter applied to the identical inputs, and that
result is stamped with the fallback identity, never the primary name when
the two differ. -/
theorem fallback_success_uses_fallback_identity
    (cfg : AdapterConfig) (inp : GenInputs) (pNet fNet : CallOutcome)
    (e : LLMError) (fpid : ProviderId) (r : LLMGenerateResponse)
    (hp : attemptProvider cfg.provider cfg.model inp pNet = Except.error e)
    (hfp : truthy cfg.fallback_provider = true)
    (hfm : truthy cfg.fallback_model = true)
    (hlook : lookupProvider (cfg.fallback_provider.getD "") = some fpid)
    (hf : providerGenerate fpid (cfg.fallback_model.getD "") inp fNet = Except.ok r) :
    LLMAdapter.generate cfg inp pNet fNet = Except.ok r
    ∧ r.provider = providerName fpid
    ∧ r.model = cfg.fallback_model.getD ""
    ∧ (providerName fpid ≠ cfg.provider → r.provider ≠ cfg.provider) := by
  have hstamp := providerGenerate_ok hf
  have hmain : LLMAdapter.generate cfg inp pNet fNet = Except.ok r := by
    unfold LLMAdapter.generate
    rw [hp]
    simp only [hfp, hfm, Bool.and_self, if_true]
    unfold attemptProvider
    rw [hlook]
    exact hf
  refine ⟨hmain, hstamp.1, hstamp.2.1, fun hne hcontra => hne ?_⟩
  rw [← hcontra]
  exact hstamp.1.symm

/-- Orchestrator configuration used by the C2 witness. -/
def c2cfg : AdapterConfig :=
  { provider := "openai", model := "gpt-4-turbo",
    fallback_provider := some "anthropic",
    fallback_model := some "claude-3-sonnet-20240229" }

/-- Input used by the C2 witness. -/
def c2inp : GenInputs :=
  { system_prompt := "You answer questions about the restaurant.",
    messages := [{ role := "user", content := "What are your hours?" }],
    tools := [], temperature := 1, max_tokens := 128 }

/-- Anthropic reply used by the C2 witness. -/
def c2reply : AnthropicReply :=
  { content := [AnthropicBlock.text "We are open 11am to 10pm."],
    usage := { input_tokens := 12, output_tokens := 9 } }

/-- Result of the C2 witness run. -/
def c2res : LLMGenerateResponse :=
  { type := "text", content := some "We are open 11am to 10pm.",
    usage := some { prompt_tokens := 12, completion_tokens := 9, total_tokens := 21 },
    provider := "anthropic", model := "claude-3-sonnet-20240229" }

/-- C2 witness: primary network failure, fallback Anthropic success. -/
theorem fallback_success_uses_fallback_identity_witness :
    LLMAdapter.generate c2cfg c2inp (CallOutcome.failure "connection timeout")
        (CallOutcome.reply (VendorReply.anthropic c2reply)) = Except.ok c2res
    ∧ c2res.provider = providerName ProviderId.anthropic
    ∧ c2res.model = "claude-3-sonnet-20240229"
    ∧ (providerName ProviderId.anthropic ≠ "openai" → c2res.provider ≠ "openai") :=
  fallback_success_uses_fallback_identity c2cfg c2inp
    (CallOutcome.failure "connection timeout")
    (CallOutcome.reply (VendorReply.anthropic c2reply))
    (LLMError.vendorError "connection timeout") ProviderId.anthropic c2res
    rfl rfl rfl rfl rfl

/-- C3: when the primary attempt and a configured fallback attempt both
fail, the orchestrator surfaces exactly the fallback error, and the primary
error, when distinct, is not what the caller sees. -/
theorem both_fail_surfaces_fallback_error
    (cfg : AdapterConfig) (inp : GenInputs) (pNet fNet : CallOutcome)
    (ep ef : LLMError)
    (hp : attemptProvider cfg.provider cfg.model inp pNet = Except.error ep)
    (hfp : truthy cfg.fallback_provider = true)
    (hfm : truthy cfg.fallback_model = true)
    (hf : attemptProvider (cfg.fallback_provider.getD "") (cfg.fallback_model.getD "")
            inp fNet = Except.error ef) :
    LLMAdapter.generate cfg inp pNet fNet = Except.error ef
    ∧ (ep ≠ ef → LLMAdapter.generate cfg inp pNet fNet ≠ Except.error ep) := by
  have hmain : LLMAdapter.generate cfg inp pNet fNet = Except.error ef := by
    unfold LLMAdapter.generate
    rw [hp]
    simp only [hfp, hfm, Bool.and_self, if_true]
    exact hf
  refine ⟨hmain, fun hne hc => ?_⟩
  rw [hmain] at hc
  injection hc with hh
  exact hne hh.symm

/-- Orchestrator configuration used by the C3 witness. -/
def c3cfg : AdapterConfig :=
  { provider := "openai", model := "gpt-4-turbo",
    fallback_provider := some "anthropic",
    fallback_model := some "claude-3-haiku-20240307" }

/-- Input used by the C3 witness. -/
def c3inp : GenInputs :=
  { system_prompt := "S", messages := [], tools := [], temperature := 1, max_tokens := 32 }

/-- C3 witness: both attempts fail, the fallback error surfaces. -/
theorem both_fail_surfaces_fallback_error_witness :
    LLMAdapter.generate c3cfg c3inp (CallOutcome.failure "primary down")
        (CallOutcome.failure "fallback down")
      = Except.error (LLMError.vendorError "fallback down")
    ∧ (LLMError.vendorError "primary down" ≠ LLMError.vendorError "fallback down" →
        LLMAdapter.generate c3cfg c3inp (CallOutcome.failure "primary down")
            (CallOutcome.failure "fallback down")
          ≠ Except.error (LLMError.vendorError "primary down")) :=
  both_fail_surfaces_fallback_error c3cfg c3inp
    (CallOutcome.failure "primary down") (CallOutcome.failure "fallback down")
    (LLMError.vendorError "primary down") (LLMError.vendorError "fallback down")
    rfl rfl rfl rfl

/-- C4: when the primary attempt fails and the fallback pair is not fully
truthy, the orchestrator surfaces exactly the primary error. -/
theorem primary_fail_no_fallback_surfaces_primary_error
    (cfg : AdapterConfig) (inp : GenInputs) (pNet fNet : CallOutcome)
    (ep : LLMError)
    (hp : attemptProvider cfg.provider cfg.model inp pNet = Except.error ep)
    (hnofb : (truthy cfg.fallback_provider && truthy cfg.fallback_model) = false) :
    LLMAdapter.generate cfg inp pNet fNet = Except.error ep := by
  unfold LLMAdapter.generate
  rw [hp]
  simp [hnofb]

/-- Orchestrator configuration used by the C4 witness: no fallback pair. -/
def c4cfg : AdapterConfig :=
  { provider := "openai", model := "gpt-4-turbo",
    fallback_provider := none, fallback_model := none }

/-- Input used by the C4 witness. -/
def c4inp : GenInputs :=
  { system_prompt := "S",
    messages := [{ role := "user", content := "What are your hours?" }],
    tools := [], temperature := 1, max_tokens := 32 }

/-- C4 witness: a primary timeout with no configured fallback surfaces the
primary error unchanged. -/
theorem primary_fail_no_fallback_surfaces_primary_error_witness :
    LLMAdapter.generate c4cfg c4inp (CallOutcome.failure "request timed out")
        (CallOutcome.failure "unused")
      = Except.error (LLMError.vendorError "request timed out") :=
  primary_fail_no_fallback_surfaces_primary_error c4cfg c4inp
    (CallOutcome.failure "request timed out") (CallOutcome.failure "unused")
    (LLMError.vendorError "request timed out") rfl rfl

/-- Orchestrator configuration used by the C5 counterexample: an
unregistered primary provider name with a registered fallback pair. -/
def c5cfg : AdapterConfig :=
  { provider := "bogus", model := "some-model",
    fallback_provider := some "openai", fallback_model := some "gpt-4-turbo" }

/-- Input used by the C5 counterexample. -/
def c5inp : GenInputs :=
  { system_prompt := "S",
    messages := [{ role := "user", content := "hi" }],
    tools := [], temperature := 1, max_tokens := 64 }

/-- OpenAI reply used by the C5 counterexample. -/
def c5reply : OpenAIReply :=
  { choices := [{ content := some "hello", tool_calls := none }], usage := none }

/-- C5 counterexample: the unknown-provider configuration error is raised
inside the guarded primary attempt, so with a fallback pair configured the
fallback IS attempted and its success is returned — the configuration error
does not propagate to the caller, refuting the claim. -/
theorem unknown_primary_provider_recovered_by_fallback :
    lookupProvider "bogus" = none
    ∧ truthy (some "openai") = true
    ∧ truthy (some "gpt-4-turbo") = true
    ∧ LLMAdapter.generate c5cfg c5inp (CallOutcome.failure "unused")
        (CallOutcome.reply (VendorReply.openai c5reply))
      = Except.ok { type := "text", content := some "hello",
                    provider := "openai", model := "gpt-4-turbo" } :=
  ⟨rfl, rfl, rfl, rfl⟩

/-- C5 (amended): an unrecognized primary provider identifier raises its
configuration error inside the guarded attempt, so when both fallback
fields are truthy the orchestrator attempts the fallback and returns that
attempt as the outcome; the configuration error propagates to the caller
only when the fallback pair is not fully truthy. -/
theorem unknown_provider_error_fallback_policy
    (cfg : AdapterConfig) (inp : GenInputs) (pNet fNet : CallOutcome)
    (hlp : lookupProvider cfg.provider = none) :
    ((truthy cfg.fallback_provider && truthy cfg.fallback_model) = true →
        LLMAdapter.generate cfg inp pNet fNet
          = attemptProvider (cfg.fallback_provider.getD "") (cfg.fallback_model.getD "")
              inp fNet)
    ∧ ((truthy cfg.fallback_provider && truthy cfg.fallback_model) = false →
        LLMAdapter.generate cfg inp pNet fNet
          = Except.error (LLMError.unknownProvider cfg.provider)) := by
  have hp : attemptProvider cfg.provider cfg.model inp pNet
      = Except.error (LLMError.unknownProvider cfg.provider) := by
    unfold attemptProvider
    rw [hlp]
  constructor
  · intro hcond
    unfold LLMAdapter.generate
    rw [hp]
    simp [hcond]
  · intro hcond
    unfold LLMAdapter.generate
    rw [hp]
    simp [hcond]

/-- Orchestrator configuration used by the C5 witness. -/
def c5wcfg : AdapterConfig :=
  { provider := "nope", model := "m",
    fallback_provider := some "openai", fallback_model := some "gpt-4-turbo" }

/-- Input used by the C5 witness. -/
def c5winp : GenInputs :=
  { system_prompt := "S", messages := [], tools := [], temperature := 1, max_tokens := 8 }

/-- C5 witness: the amended theorem applied to a concrete unknown primary
provider with a configured fallback pair. -/
theorem unknown_provider_error_fallback_policy_witness :
    LLMAdapter.generate c5wcfg c5winp (CallOutcome.failure "x") (CallOutcome.failure "y")
      = attemptProvider "openai" "gpt-4-turbo" c5winp (CallOutcome.failure "y") :=
  (unknown_provider_error_fallback_policy c5wcfg c5winp
    (CallOutcome.failure "x") (CallOutcome.failure "y") rfl).1 rfl

/-- C6: the Anthropic adapter merges adjacent same-role messages.  First:
two consecutive user messages become one outbound message whose content is
the first content, a newline, then the second content.  Second: the
transmitted list never holds two adjacent messages with the same role.
Third: in general, when the next message carries the role of the current
one, the merge continues with a single combined message in place of the
two, preserving order. -/
theorem anthropic_adjacent_same_role_messages_merged :
    (∀ a b : String,
      anthropicOutbound [{ role := "user", content := a }, { role := "user", content := b }]
        = [{ role := "user", content := a ++ "\n" ++ b }])
    ∧ (∀ msgs : List LLMMessage, rolesAlternate (anthropicOutbound msgs) = true)
    ∧ (∀ (cur m : LLMMessage) (rest : List LLMMessage), m.role = cur.role →
        mergeAux cur (m :: rest)
          = mergeAux { role := cur.role, content := cur.content ++ "\n" ++ m.content } rest) := by
  refine ⟨fun a b => rfl, fun msgs => ?_, fun cur m rest hmr => ?_⟩
  · unfold anthropicOutbound
    by_cases hemp : (anthropicProcessed msgs).isEmpty
    · rw [if_pos hemp]
      rfl
    · rw [if_neg hemp]
      exact mergeMessages_alternates _
  · simp only [mergeAux]
    rw [if_pos hmr]

/-- C6 witness: the merging theorem applied to concrete messages. -/
theorem anthropic_adjacent_same_role_messages_merged_witness :
    anthropicOutbound [{ role := "user", content := "Hi" }, { role := "user", content := "there" }]
      = [{ role := "user", content := "Hi\nthere" }]
    ∧ rolesAlternate (anthropicOutbound
        [{ role := "system", content := "s" }, { role := "user", content := "u" }]) = true
    ∧ mergeAux { role := "user", content := "a" } [{ role := "user", content := "b" }]
      = mergeAux { role := "user", content := "a\nb" } [] :=
  ⟨anthropic_adjacent_same_role_messages_merged.1 "Hi" "there",
   anthropic_adjacent_same_role_messages_merged.2.1 _,
   anthropic_adjacent_same_role_messages_merged.2.2
     { role := "user", content := "a" } { role := "user", content := "b" } [] rfl⟩

/-- C7 counterexample: the Anthropic request built for a non-empty tools
list carries no tool_choice key at all, refuting the claim that every
adapter variant requests automatic tool selection when tools are present. -/
theorem anthropic_request_lacks_tool_choice :
    ({ system_prompt := "S", messages := [],
       tools := [{ name := "search_menu", description := "Search the menu",
                   parameters := [("type", JVal.str "object")] }],
       temperature := 1, max_tokens := 64 } : GenInputs).tools ≠ []
    ∧ (anthropicBuildKwargs "claude-3-sonnet-20240229"
        { system_prompt := "S", messages := [],
          tools := [{ name := "search_menu", description := "Search the menu",
                      parameters := [("type", JVal.str "object")] }],
          temperature := 1, max_tokens := 64 }).lookup "tool_choice" = none :=
  ⟨by simp, rfl⟩

/-- C7 (amended): only the OpenAI adapter requests automatic tool selection
when tools are present; the Anthropic, Ollama and Gemini requests carry the
tool declarations without any tool-choice key. -/
theorem tool_choice_only_set_by_openai (model : String) (inp : GenInputs) :
    (inp.tools ≠ [] →
      (openaiBuildKwargs model inp).lookup "tool_choice" = some (JVal.str "auto"))
    ∧ (anthropicBuildKwargs model inp).lookup "tool_choice" = none
    ∧ (ollamaBuildPayload model inp).lookup "tool_choice" = none
    ∧ (geminiBuildRequest inp).kwargs.lookup "tool_choice" = none
    ∧ (geminiBuildRequest inp).kwargs.lookup "tool_config" = none := by
  obtain ⟨sys, msgs, tools, temp, mt⟩ := inp
  cases tools with
  | nil =>
    exact ⟨fun h => absurd rfl h, rfl, rfl, rfl, rfl⟩
  | cons t ts =>
    exact ⟨fun h => rfl, rfl, rfl, rfl, rfl⟩

/-- Input used by the C7 witness. -/
def c7winp : GenInputs :=
  { system_prompt := "S", messages := [],
    tools := [{ name := "search_menu", description := "Search the menu",
                parameters := [("type", JVal.str "object")] }],
    temperature := 1, max_tokens := 64 }

/-- C7 witness: the amended theorem applied to a concrete request carrying
one tool. -/
theorem tool_choice_only_set_by_openai_witness :
    (openaiBuildKwargs "gpt-4-turbo" c7winp).lookup "tool_choice" = some (JVal.str "auto")
    ∧ (anthropicBuildKwargs "gpt-4-turbo" c7winp).lookup "tool_choice" = none := by
  have h := tool_choice_only_set_by_openai "gpt-4-turbo" c7winp
  exact ⟨h.1 (by simp [c7winp]), h.2.1⟩

/-- C8: when normalization and merging leave an empty message list, the
Anthropic adapter transmits a single placeholder user message with content
Hello, and on the same empty conversation the Gemini adapter uses Hello as
the placeholder new turn appended to the system prompt. -/
theorem empty_messages_hello_placeholder (msgs : List LLMMessage)
    (h : anthropicProcessed msgs = []) :
    anthropicOutbound msgs = [{ role := "user", content := "Hello" }]
    ∧ ∀ inp : GenInputs, inp.messages = msgs →
        (geminiBuildRequest inp).message = inp.system_prompt ++ "\n\n" ++ "Hello" := by
  have hnil : msgs = [] := by
    have := mergeMessages_eq_nil h
    cases msgs with
    | nil => rfl
    | cons m rest => exact absurd this (by simp)
  constructor
  · unfold anthropicOutbound
    rw [h]
    rfl
  · intro inp hm
    rw [hnil] at hm
    unfold geminiBuildRequest
    simp [geminiHistory, geminiLastMessage, hm]

/-- C8 witness: the placeholder theorem applied to the empty conversation. -/
theorem empty_messages_hello_placeholder_witness :
    anthropicOutbound [] = [{ role := "user", content := "Hello" }]
    ∧ (geminiBuildRequest
        { system_prompt := "Sys", messages := [], tools := [],
          temperature := 1, max_tokens := 8 }).message = "Sys" ++ "\n\n" ++ "Hello" :=
  ⟨(empty_messages_hello_placeholder [] rfl).1,
   (empty_messages_hello_placeholder [] rfl).2
     { system_prompt := "Sys", messages := [], tools := [],
       temperature := 1, max_tokens := 8 } rfl⟩

/-- Tenant record used by the C9 counterexample: a record exists but all
four stored LLM columns are null. -/
def c9tenant : TenantRec :=
  { llm_provider := none, llm_model := none,
    fallback_llm_provider := none, fallback_llm_model := none }

/-- C9 counterexample: with a tenant record present whose stored provider
is null and no per-request override, the entry point resolves the provider
to null, while the claimed three-layer precedence would resolve it to the
hardcoded openai default — the code never falls through to the system
default once a tenant record exists. -/
theorem resolve_config_tenant_null_no_system_default :
    (resolveConfig none none (some c9tenant)).provider = none
    ∧ (resolveConfigSpecLayered none none (some c9tenant)).provider = some "openai"
    ∧ resolveConfig none none (some c9tenant)
        ≠ resolveConfigSpecLayered none none (some c9tenant) :=
  ⟨rfl, rfl, by decide⟩

/-- C9 (amended): a truthy per-request override always wins; with a tenant
record present and no truthy override, the stored tenant value is used even
when it is null or empty, the system default is not applied, and the
fallback pair is copied from the tenant; only without a tenant record do
the hardcoded defaults openai and gpt-4-turbo apply, with no fallback pair
configured. -/
theorem resolve_config_layering_amended (reqP reqM : Option String)
    (t : Option TenantRec) :
    (truthy reqP = true → (resolveConfig reqP reqM t).provider = reqP)
    ∧ (truthy reqM = true → (resolveConfig reqP reqM t).model = reqM)
    ∧ (∀ tr, t = some tr → truthy reqP = false →
        (resolveConfig reqP reqM t).provider = tr.llm_provider)
    ∧ (∀ tr, t = some tr → truthy reqM = false →
        (resolveConfig reqP reqM t).model = tr.llm_model)
    ∧ (∀ tr, t = some tr →
        (resolveConfig reqP reqM t).fallback_provider = tr.fallback_llm_provider
        ∧ (resolveConfig reqP reqM t).fallback_model = tr.fallback_llm_model)
    ∧ (t = none → truthy reqP = false →
        (resolveConfig reqP reqM t).provider = some "openai")
    ∧ (t = none → truthy reqM = false →
        (resolveConfig reqP reqM t).model = some "gpt-4-turbo")
    ∧ (t = none →
        (resolveConfig reqP reqM t).fallback_provider = none
        ∧ (resolveConfig reqP reqM t).fallback_model = none) := by
  cases t with
  | none =>
    refine ⟨fun hP => ?_, fun hM => ?_,
            fun tr htr => absurd htr (by simp),
            fun tr htr => absurd htr (by simp),
            fun tr htr => absurd htr (by simp),
            fun _ hP => ?_, fun _ hM => ?_, fun _ => ⟨rfl, rfl⟩⟩
    · simp [resolveConfig, pyOr, hP]
    · simp [resolveConfig, pyOr, hM]
    · simp [resolveConfig, pyOr, hP]
    · simp [resolveConfig, pyOr, hM]
  | some tr0 =>
    refine ⟨fun hP => ?_, fun hM => ?_,
            fun tr htr hP => ?_, fun tr htr hM => ?_, fun tr htr => ?_,
            fun hnone => absurd hnone (by simp),
            fun hnone => absurd hnone (by simp),
            fun hnone => absurd hnone (by simp)⟩
    · simp [resolveConfig, pyOr, hP]
    · simp [resolveConfig, pyOr, hM]
    · injection htr with htr
      subst htr
      simp [resolveConfig, pyOr, hP]
    · injection htr with htr
      subst htr
      simp [resolveConfig, pyOr, hM]
    · injection htr with htr
      subst htr
      exact ⟨rfl, rfl⟩

/-- C9 witness: the amended layering theorem applied to a concrete request
override with no tenant record. -/
theorem resolve_config_layering_amended_witness :
    (resolveConfig (some "gemini") none none).provider = some "gemini"
    ∧ (resolveConfig (some "gemini") none none).model = some "gpt-4-turbo"
    ∧ (resolveConfig (some "gemini") none none).fallback_provider = none := by
  have h := resolve_config_layering_amended (some "gemini") none none
  exact ⟨h.1 rfl, h.2.2.2.2.2.2.1 rfl rfl, (h.2.2.2.2.2.2.2 rfl).1⟩

/-- C10: when the primary attempt fails and exactly one of the two fallback
fields is truthy, no fallback attempt is made — whatever the would-be
fallback network outcome, the orchestrator surfaces the primary error. -/
theorem half_truthy_fallback_pair_no_attempt
    (cfg : AdapterConfig) (inp : GenInputs) (pNet : CallOutcome) (ep : LLMError)
    (hp : attemptProvider cfg.provider cfg.model inp pNet = Except.error ep)
    (hxor : truthy cfg.fallback_provider ≠ truthy cfg.fallback_model) :
    ∀ fNet : CallOutcome, LLMAdapter.generate cfg inp pNet fNet = Except.error ep := by
  intro fNet
  have hfalse : (truthy cfg.fallback_provider && truthy cfg.fallback_model) = false := by
    cases hb : truthy cfg.fallback_provider <;>
      cases hc : truthy cfg.fallback_model <;> simp_all
  unfold LLMAdapter.generate
  rw [hp]
  simp [hfalse]

/-- Orchestrator configuration used by the C10 witness: only the fallback
provider field is set. -/
def c10cfg : AdapterConfig :=
  { provider := "openai", model := "gpt-4-turbo",
    fallback_provider := some "anthropic", fallback_model := none }

/-- Input used by the C10 witness. -/
def c10inp : GenInputs :=
  { system_prompt := "S", messages := [], tools := [], temperature := 1, max_tokens := 16 }

/-- Anthropic reply used by the C10 witness: a reply that would succeed if
the fallback were attempted. -/
def c10reply : AnthropicReply :=
  { content := [AnthropicBlock.text "would succeed"],
    usage := { input_tokens := 1, output_tokens := 1 } }

/-- C10 witness: with only the fallback provider set, the primary error
propagates even though a successful fallback reply was available. -/
theorem half_truthy_fallback_pair_no_attempt_witness :
    LLMAdapter.generate c10cfg c10inp (CallOutcome.failure "boom")
        (CallOutcome.reply (VendorReply.anthropic c10reply))
      = Except.error (LLMError.vendorError "boom") :=
  half_truthy_fallback_pair_no_attempt c10cfg c10inp (CallOutcome.failure "boom")
    (LLMError.vendorError "boom") rfl (by decide)
    (CallOutcome.reply (VendorReply.anthropic c10reply))
